import Mathlib

/-!
Verification of the layer abstraction of pcap2socks (src/pcap/layer.rs):
the layer type tag, the serialization outcome type, the layer capability
contract, the closed variant set `Layers` with its dispatch, and the
stack serialization driver.

Buffers (`&mut [u8]` in the source) are embedded as `List Nat` of byte
values; a serialization operation takes the buffer and returns the
outcome together with the buffer after the call (mutation made explicit).
The concrete protocol encoders (modules `ethernet`, `arp`, `ipv4`, `tcp`,
`udp`) are not part of the given sources, so they are modelled from the
spec, as marked on each such definition.
-/

/-- The layer type tag from the source: `pub struct LayerType(u8);`, a
newtype over a byte. The source derives `Clone, Debug, Eq, Hash, PartialEq`. -/
structure LayerType where
  val : Fin 256
  deriving DecidableEq

/-- The derive attribute on `LayerType` in the source, kept as data so the
presence of derived capabilities can be stated. -/
def LayerType.derives : List String := ["Clone", "Debug", "Eq", "Hash", "PartialEq"]

/-- Derived `Clone` on `LayerType`: a field-by-field copy of the wrapped byte. -/
def LayerType.clone (t : LayerType) : LayerType := ⟨t.val⟩

/-- Derived `Hash` on `LayerType` feeds exactly the wrapped byte to the
hasher, so the hash input is determined by the underlying identity. -/
def LayerType.hashInput (t : LayerType) : Nat := t.val.val

namespace LayerTypes

/-- Constant `Ethernet: LayerType = LayerType(0)` from module `LayerTypes`. -/
def Ethernet : LayerType := ⟨0⟩

/-- Constant `Arp: LayerType = LayerType(1)` from module `LayerTypes`. -/
def Arp : LayerType := ⟨1⟩

/-- Constant `Ipv4: LayerType = LayerType(2)` from module `LayerTypes`. -/
def Ipv4 : LayerType := ⟨2⟩

/-- Constant `Tcp: LayerType = LayerType(3)` from module `LayerTypes`. -/
def Tcp : LayerType := ⟨3⟩

/-- Constant `Udp: LayerType = LayerType(4)` from module `LayerTypes`. -/
def Udp : LayerType := ⟨4⟩

end LayerTypes

/-- The `Display` implementation of `LayerType`: a match against the five
constants, with a catch-all arm rendering `unknown`. -/
def LayerType.display (t : LayerType) : String :=
  if t = LayerTypes.Ethernet then "Ethernet"
  else if t = LayerTypes.Arp then "ARP"
  else if t = LayerTypes.Ipv4 then "IPv4"
  else if t = LayerTypes.Tcp then "TCP"
  else if t = LayerTypes.Udp then "UDP"
  else "unknown"

/-- Values of `LayerType` obtainable through the public surface of the
source module: the wrapped byte is a private field, so outside code can
only use the five constants of module `LayerTypes` or clone an existing
tag (derived `Clone`). -/
inductive LayerType.Reachable : LayerType → Prop
  | ethernet : LayerType.Reachable LayerTypes.Ethernet
  | arp : LayerType.Reachable LayerTypes.Arp
  | ipv4 : LayerType.Reachable LayerTypes.Ipv4
  | tcp : LayerType.Reachable LayerTypes.Tcp
  | udp : LayerType.Reachable LayerTypes.Udp
  | clone {t : LayerType} : LayerType.Reachable t → LayerType.Reachable (LayerType.clone t)

/-- The error enum from the source: `enum SerializeError`, with the single
variant `BufferTooSmallError`. -/
inductive SerializeError where
  | BufferTooSmallError : SerializeError
  deriving DecidableEq

/-- The `Display` implementation of `SerializeError`. -/
def SerializeError.display : SerializeError → String
  | SerializeError.BufferTooSmallError => "buffer too small"

/-- The alias `SerializeResult = Result<usize, SerializeError>` from the
source. -/
abbrev SerializeResult := Except SerializeError Nat

instance : DecidableEq SerializeResult := fun a b =>
  match a, b with
  | Except.ok x, Except.ok y =>
    if h : x = y then Decidable.isTrue (by rw [h])
    else Decidable.isFalse (by intro hh; injection hh; contradiction)
  | Except.ok _, Except.error _ => Decidable.isFalse (fun hh => Except.noConfusion hh)
  | Except.error _, Except.ok _ => Decidable.isFalse (fun hh => Except.noConfusion hh)
  | Except.error x, Except.error y =>
    if h : x = y then Decidable.isTrue (by rw [h])
    else Decidable.isFalse (by intro hh; injection hh; contradiction)

/-- Modelled from the spec: the state of one concrete protocol encoder
(the modules `ethernet`, `arp`, `ipv4`, `tcp`, `udp` are absent from the
given sources). Per the spec, a layer owns all the data needed to render
its own header; its rendered byte length always equals its reported size;
`serialize_n` must still write exactly `get_size()` bytes. `render` is the
byte sequence `serialize` writes, `renderN n` the byte sequence
`serialize_n` writes when told the encapsulated total `n`, and `text` the
human-readable `Display` rendering. -/
structure LayerData where
  render : List Nat
  renderN : Nat → List Nat
  renderN_length : ∀ n, (renderN n).length = render.length
  text : String

/-- Modelled from the spec: `get_size` reports the exact number of bytes
the layer will write, computed from the layer's own fields only. -/
def LayerData.get_size (d : LayerData) : Nat := d.render.length

/-- Writing a byte sequence over the start of a buffer: the first
`src.length` bytes are replaced, the rest of the buffer is untouched. -/
def writeInto (src buffer : List Nat) : List Nat := src ++ buffer.drop src.length

/-- Modelled from the spec: `serialize` writes exactly `get_size()` bytes
into the start of the buffer and returns that count, or fails with the
buffer-too-small condition if the buffer is shorter than `get_size()`,
writing nothing. -/
def LayerData.serialize (d : LayerData) (buffer : List Nat) :
    SerializeResult × List Nat :=
  if buffer.length < d.get_size then (Except.error SerializeError.BufferTooSmallError, buffer)
  else (Except.ok d.render.length, writeInto d.render buffer)

/-- Modelled from the spec: `serialize_n` behaves as `serialize`, except
the layer is additionally told `n`, the total byte count of itself plus
every layer nested inside it, which may change the rendered field values
but never the rendered byte count. -/
def LayerData.serialize_n (d : LayerData) (buffer : List Nat) (n : Nat) :
    SerializeResult × List Nat :=
  if buffer.length < d.get_size then (Except.error SerializeError.BufferTooSmallError, buffer)
  else (Except.ok (d.renderN n).length, writeInto (d.renderN n) buffer)

namespace ethernet

/-- Modelled from the spec: the concrete Ethernet encoder (module
`ethernet`, absent from the given sources). Field-level encoding is out
of scope; the encoder satisfies the layer capability contract. -/
structure Ethernet where
  data : LayerData

/-- Modelled from the spec: an Ethernet layer's type tag. -/
def Ethernet.get_type (_ : Ethernet) : LayerType := LayerTypes.Ethernet

/-- Modelled from the spec: size reporting of the Ethernet encoder. -/
def Ethernet.get_size (l : Ethernet) : Nat := l.data.get_size

/-- Modelled from the spec: `serialize` of the Ethernet encoder. -/
def Ethernet.serialize (l : Ethernet) (buffer : List Nat) :
    SerializeResult × List Nat := l.data.serialize buffer

/-- Modelled from the spec: `serialize_n` of the Ethernet encoder. -/
def Ethernet.serialize_n (l : Ethernet) (buffer : List Nat) (n : Nat) :
    SerializeResult × List Nat := l.data.serialize_n buffer n

/-- Modelled from the spec: `Display` of the Ethernet encoder. -/
def Ethernet.fmt (l : Ethernet) : String := l.data.text

/-- Modelled from the spec: `Clone` of the Ethernet encoder deep-copies
its fields. -/
def Ethernet.clone (l : Ethernet) : Ethernet := ⟨l.data⟩

end ethernet

namespace arp

/-- Modelled from the spec: the concrete ARP encoder (module `arp`,
absent from the given sources). -/
structure Arp where
  data : LayerData

/-- Modelled from the spec: an ARP layer's type tag. -/
def Arp.get_type (_ : Arp) : LayerType := LayerTypes.Arp

/-- Modelled from the spec: size reporting of the ARP encoder. -/
def Arp.get_size (l : Arp) : Nat := l.data.get_size

/-- Modelled from the spec: `serialize` of the ARP encoder. -/
def Arp.serialize (l : Arp) (buffer : List Nat) :
    SerializeResult × List Nat := l.data.serialize buffer

/-- Modelled from the spec: `serialize_n` of the ARP encoder. -/
def Arp.serialize_n (l : Arp) (buffer : List Nat) (n : Nat) :
    SerializeResult × List Nat := l.data.serialize_n buffer n

/-- Modelled from the spec: `Display` of the ARP encoder. -/
def Arp.fmt (l : Arp) : String := l.data.text

/-- Modelled from the spec: `Clone` of the ARP encoder deep-copies its
fields. -/
def Arp.clone (l : Arp) : Arp := ⟨l.data⟩

end arp

namespace ipv4

/-- Modelled from the spec: the concrete IPv4 encoder (module `ipv4`,
absent from the given sources). -/
structure Ipv4 where
  data : LayerData

/-- Modelled from the spec: an IPv4 layer's type tag. -/
def Ipv4.get_type (_ : Ipv4) : LayerType := LayerTypes.Ipv4

/-- Modelled from the spec: size reporting of the IPv4 encoder. -/
def Ipv4.get_size (l : Ipv4) : Nat := l.data.get_size

/-- Modelled from the spec: `serialize` of the IPv4 encoder. -/
def Ipv4.serialize (l : Ipv4) (buffer : List Nat) :
    SerializeResult × List Nat := l.data.serialize buffer

/-- Modelled from the spec: `serialize_n` of the IPv4 encoder. -/
def Ipv4.serialize_n (l : Ipv4) (buffer : List Nat) (n : Nat) :
    SerializeResult × List Nat := l.data.serialize_n buffer n

/-- Modelled from the spec: `Display` of the IPv4 encoder. -/
def Ipv4.fmt (l : Ipv4) : String := l.data.text

/-- Modelled from the spec: `Clone` of the IPv4 encoder deep-copies its
fields. -/
def Ipv4.clone (l : Ipv4) : Ipv4 := ⟨l.data⟩

end ipv4

namespace tcp

/-- Modelled from the spec: the concrete TCP encoder (module `tcp`,
absent from the given sources). -/
structure Tcp where
  data : LayerData

/-- Modelled from the spec: a TCP layer's type tag. -/
def Tcp.get_type (_ : Tcp) : LayerType := LayerTypes.Tcp

/-- Modelled from the spec: size reporting of the TCP encoder. -/
def Tcp.get_size (l : Tcp) : Nat := l.data.get_size

/-- Modelled from the spec: `serialize` of the TCP encoder. -/
def Tcp.serialize (l : Tcp) (buffer : List Nat) :
    SerializeResult × List Nat := l.data.serialize buffer

/-- Modelled from the spec: `serialize_n` of the TCP encoder. -/
def Tcp.serialize_n (l : Tcp) (buffer : List Nat) (n : Nat) :
    SerializeResult × List Nat := l.data.serialize_n buffer n

/-- Modelled from the spec: `Display` of the TCP encoder. -/
def Tcp.fmt (l : Tcp) : String := l.data.text

/-- Modelled from the spec: `Clone` of the TCP encoder deep-copies its
fields. -/
def Tcp.clone (l : Tcp) : Tcp := ⟨l.data⟩

end tcp

namespace udp

/-- Modelled from the spec: the concrete UDP encoder (module `udp`,
absent from the given sources). -/
structure Udp where
  data : LayerData

/-- Modelled from the spec: a UDP layer's type tag. -/
def Udp.get_type (_ : Udp) : LayerType := LayerTypes.Udp

/-- Modelled from the spec: size reporting of the UDP encoder. -/
def Udp.get_size (l : Udp) : Nat := l.data.get_size

/-- Modelled from the spec: `serialize` of the UDP encoder. -/
def Udp.serialize (l : Udp) (buffer : List Nat) :
    SerializeResult × List Nat := l.data.serialize buffer

/-- Modelled from the spec: `serialize_n` of the UDP encoder. -/
def Udp.serialize_n (l : Udp) (buffer : List Nat) (n : Nat) :
    SerializeResult × List Nat := l.data.serialize_n buffer n

/-- Modelled from the spec: `Display` of the UDP encoder. -/
def Udp.fmt (l : Udp) : String := l.data.text

/-- Modelled from the spec: `Clone` of the UDP encoder deep-copies its
fields. -/
def Udp.clone (l : Udp) : Udp := ⟨l.data⟩

end udp

/-- The closed variant set from the source: `enum Layers`, one variant per
concrete protocol encoder. The source derives `Debug, Clone` on it. -/
inductive Layers where
  | Ethernet (layer : ethernet.Ethernet)
  | Arp (layer : arp.Arp)
  | Ipv4 (layer : ipv4.Ipv4)
  | Tcp (layer : tcp.Tcp)
  | Udp (layer : udp.Udp)

/-- The derive attribute on `Layers` in the source
(`#[derive(Debug, Clone)]`), kept as data so the presence and absence of
derived capabilities can be stated. -/
def Layers.derives : List String := ["Debug", "Clone"]

/-- The `Display` implementation of `Layers` from the source: forwards to
the held layer's rendering. -/
def Layers.fmt : Layers → String
  | Layers.Ethernet layer => layer.fmt
  | Layers.Arp layer => layer.fmt
  | Layers.Ipv4 layer => layer.fmt
  | Layers.Tcp layer => layer.fmt
  | Layers.Udp layer => layer.fmt

/-- `Layers::get_type` from the source: forwards to the held layer. -/
def Layers.get_type : Layers → LayerType
  | Layers.Ethernet layer => layer.get_type
  | Layers.Arp layer => layer.get_type
  | Layers.Ipv4 layer => layer.get_type
  | Layers.Tcp layer => layer.get_type
  | Layers.Udp layer => layer.get_type

/-- `Layers::get_size` from the source: forwards to the held layer. -/
def Layers.get_size : Layers → Nat
  | Layers.Ethernet layer => layer.get_size
  | Layers.Arp layer => layer.get_size
  | Layers.Ipv4 layer => layer.get_size
  | Layers.Tcp layer => layer.get_size
  | Layers.Udp layer => layer.get_size

/-- `Layers::serialize` from the source: forwards to the held layer. -/
def Layers.serialize : Layers → List Nat → SerializeResult × List Nat
  | Layers.Ethernet layer, buffer => layer.serialize buffer
  | Layers.Arp layer, buffer => layer.serialize buffer
  | Layers.Ipv4 layer, buffer => layer.serialize buffer
  | Layers.Tcp layer, buffer => layer.serialize buffer
  | Layers.Udp layer, buffer => layer.serialize buffer

/-- `Layers::serialize_n` from the source: forwards to the held layer. -/
def Layers.serialize_n : Layers → List Nat → Nat → SerializeResult × List Nat
  | Layers.Ethernet layer, buffer, n => layer.serialize_n buffer n
  | Layers.Arp layer, buffer, n => layer.serialize_n buffer n
  | Layers.Ipv4 layer, buffer, n => layer.serialize_n buffer n
  | Layers.Tcp layer, buffer, n => layer.serialize_n buffer n
  | Layers.Udp layer, buffer, n => layer.serialize_n buffer n

/-- Derived `Clone` on `Layers`: clones the held concrete layer into a
fresh variant of the same constructor. -/
def Layers.clone : Layers → Layers
  | Layers.Ethernet layer => Layers.Ethernet layer.clone
  | Layers.Arp layer => Layers.Arp layer.clone
  | Layers.Ipv4 layer => Layers.Ipv4 layer.clone
  | Layers.Tcp layer => Layers.Tcp layer.clone
  | Layers.Udp layer => Layers.Udp layer.clone

/-- Modelled from the spec: the stack serialization driver (not among the
given sources). It checks that the whole stack fits the buffer, then
writes each layer in order at its offset, supplying as `n` the sum of the
layer's own size and all inner (later) layers' sizes, and sums the
reported counts, stopping at the first failure. -/
def driveStack : List Layers → List Nat → SerializeResult × List Nat
  | [], buffer => (Except.ok 0, buffer)
  | l :: rest, buffer =>
    match l.serialize_n buffer (((l :: rest).map Layers.get_size).sum) with
    | (Except.error e, b) => (Except.error e, b)
    | (Except.ok k, b) =>
      match driveStack rest (b.drop l.get_size) with
      | (Except.error e, b2) => (Except.error e, b.take l.get_size ++ b2)
      | (Except.ok m, b2) => (Except.ok (k + m), b.take l.get_size ++ b2)

/-- Modelled from the spec: the stack serialization driver's entry point,
failing immediately with the buffer-too-small condition when the summed
sizes exceed the buffer length. -/
def serializeStack (stack : List Layers) (buffer : List Nat) :
    SerializeResult × List Nat :=
  if buffer.length < ((stack.map Layers.get_size).sum) then
    (Except.error SerializeError.BufferTooSmallError, buffer)
  else driveStack stack buffer

/-- A sample concrete layer body used to instantiate theorems at concrete
inputs: two rendered bytes, independent of the encapsulated total. -/
def sampleData : LayerData :=
  { render := [170, 187]
    renderN := fun _ => [170, 187]
    renderN_length := fun _ => rfl
    text := "sample" }

/-- A sample Ethernet layer built from `sampleData`. -/
def sampleEthernet : ethernet.Ethernet := ⟨sampleData⟩

theorem writeInto_length {src buffer : List Nat} (h : src.length ≤ buffer.length) :
    (writeInto src buffer).length = buffer.length := by
  simp [writeInto]
  omega

theorem writeInto_drop (src buffer : List Nat) :
    (writeInto src buffer).drop src.length = buffer.drop src.length := by
  simp [writeInto]

theorem LayerData.serialize_eq_of_le (d : LayerData) (b : List Nat)
    (h : d.get_size ≤ b.length) :
    d.serialize b = (Except.ok d.get_size, writeInto d.render b) := by
  unfold LayerData.serialize
  rw [if_neg (Nat.not_lt.mpr h)]
  rfl

theorem LayerData.serialize_n_eq_of_le (d : LayerData) (b : List Nat) (n : Nat)
    (h : d.get_size ≤ b.length) :
    d.serialize_n b n = (Except.ok d.get_size, writeInto (d.renderN n) b) := by
  unfold LayerData.serialize_n
  rw [if_neg (Nat.not_lt.mpr h), d.renderN_length n]
  rfl

theorem LayerData.serialize_facts (d : LayerData) (b : List Nat) (n : Nat)
    (h : d.get_size ≤ b.length) :
    (d.serialize b).1 = Except.ok d.get_size ∧
    (d.serialize_n b n).1 = Except.ok d.get_size ∧
    ((d.serialize b).2).length = b.length ∧
    ((d.serialize b).2).drop d.get_size = b.drop d.get_size ∧
    ((d.serialize_n b n).2).length = b.length ∧
    ((d.serialize_n b n).2).drop d.get_size = b.drop d.get_size := by
  rw [d.serialize_eq_of_le b h, d.serialize_n_eq_of_le b n h]
  refine ⟨rfl, rfl, writeInto_length h, writeInto_drop _ _, ?_, ?_⟩
  · exact writeInto_length (by rw [d.renderN_length n]; exact h)
  · have hd := writeInto_drop (d.renderN n) b
    rwa [d.renderN_length n] at hd

theorem LayerData.serialize_err (d : LayerData) (b : List Nat) (n : Nat)
    (h : b.length < d.get_size) :
    d.serialize b = (Except.error SerializeError.BufferTooSmallError, b) ∧
    d.serialize_n b n = (Except.error SerializeError.BufferTooSmallError, b) := by
  constructor <;> simp [LayerData.serialize, LayerData.serialize_n, h]

/-- The body held by a `Layers` value, used to factor case analyses; it is
proven below to agree with the dispatch of the source. -/
def Layers.heldData : Layers → LayerData
  | Layers.Ethernet layer => layer.data
  | Layers.Arp layer => layer.data
  | Layers.Ipv4 layer => layer.data
  | Layers.Tcp layer => layer.data
  | Layers.Udp layer => layer.data

theorem Layers.get_size_eq_heldData (l : Layers) : l.get_size = l.heldData.get_size := by
  cases l <;> rfl

theorem Layers.serialize_eq_heldData (l : Layers) (b : List Nat) :
    l.serialize b = l.heldData.serialize b := by
  cases l <;> rfl

theorem Layers.serialize_n_eq_heldData (l : Layers) (b : List Nat) (n : Nat) :
    l.serialize_n b n = l.heldData.serialize_n b n := by
  cases l <;> rfl

theorem Layers.serialize_ok_facts (l : Layers) (b : List Nat) (n : Nat)
    (h : l.get_size ≤ b.length) :
    (l.serialize b).1 = Except.ok l.get_size ∧
    (l.serialize_n b n).1 = Except.ok l.get_size ∧
    ((l.serialize b).2).length = b.length ∧
    ((l.serialize b).2).drop l.get_size = b.drop l.get_size ∧
    ((l.serialize_n b n).2).length = b.length ∧
    ((l.serialize_n b n).2).drop l.get_size = b.drop l.get_size := by
  rw [l.serialize_eq_heldData b, l.serialize_n_eq_heldData b n, l.get_size_eq_heldData]
  exact l.heldData.serialize_facts b n (l.get_size_eq_heldData ▸ h)

theorem Layers.serialize_err_facts (l : Layers) (b : List Nat) (n : Nat)
    (h : b.length < l.get_size) :
    l.serialize b = (Except.error SerializeError.BufferTooSmallError, b) ∧
    l.serialize_n b n = (Except.error SerializeError.BufferTooSmallError, b) := by
  rw [l.serialize_eq_heldData b, l.serialize_n_eq_heldData b n]
  exact l.heldData.serialize_err b n (l.get_size_eq_heldData ▸ h)

/-- C1: for every `Layers` value and every operation of the layer
capability contract (`get_type`, `get_size`, `serialize`, `serialize_n`)
as well as `Display`, the `Layers` wrapper returns exactly what the held
concrete layer's corresponding operation returns on the same arguments:
no argument is altered and no outcome is altered. -/
theorem claim_C1 (b : List Nat) (n : Nat)
    (e : ethernet.Ethernet) (a : arp.Arp) (i : ipv4.Ipv4)
    (t : tcp.Tcp) (u : udp.Udp) :
    ((Layers.Ethernet e).get_type = e.get_type ∧
     (Layers.Ethernet e).get_size = e.get_size ∧
     (Layers.Ethernet e).serialize b = e.serialize b ∧
     (Layers.Ethernet e).serialize_n b n = e.serialize_n b n ∧
     (Layers.Ethernet e).fmt = e.fmt) ∧
    ((Layers.Arp a).get_type = a.get_type ∧
     (Layers.Arp a).get_size = a.get_size ∧
     (Layers.Arp a).serialize b = a.serialize b ∧
     (Layers.Arp a).serialize_n b n = a.serialize_n b n ∧
     (Layers.Arp a).fmt = a.fmt) ∧
    ((Layers.Ipv4 i).get_type = i.get_type ∧
     (Layers.Ipv4 i).get_size = i.get_size ∧
     (Layers.Ipv4 i).serialize b = i.serialize b ∧
     (Layers.Ipv4 i).serialize_n b n = i.serialize_n b n ∧
     (Layers.Ipv4 i).fmt = i.fmt) ∧
    ((Layers.Tcp t).get_type = t.get_type ∧
     (Layers.Tcp t).get_size = t.get_size ∧
     (Layers.Tcp t).serialize b = t.serialize b ∧
     (Layers.Tcp t).serialize_n b n = t.serialize_n b n ∧
     (Layers.Tcp t).fmt = t.fmt) ∧
    ((Layers.Udp u).get_type = u.get_type ∧
     (Layers.Udp u).get_size = u.get_size ∧
     (Layers.Udp u).serialize b = u.serialize b ∧
     (Layers.Udp u).serialize_n b n = u.serialize_n b n ∧
     (Layers.Udp u).fmt = u.fmt) :=
  ⟨⟨rfl, rfl, rfl, rfl, rfl⟩, ⟨rfl, rfl, rfl, rfl, rfl⟩, ⟨rfl, rfl, rfl, rfl, rfl⟩,
   ⟨rfl, rfl, rfl, rfl, rfl⟩, ⟨rfl, rfl, rfl, rfl, rfl⟩⟩

/-- C2: for every `Layers` value and every buffer of length at least
`get_size`, `serialize` returns `Ok(get_size)`, and `serialize_n` with
any `n` at least `get_size` also returns `Ok(get_size)`; exactly
`get_size` bytes of the buffer are written (the length is preserved and
everything past the first `get_size` bytes is untouched). -/
theorem claim_C2 (l : Layers) (b : List Nat) (n : Nat)
    (hb : l.get_size ≤ b.length) (_hn : l.get_size ≤ n) :
    (l.serialize b).1 = Except.ok l.get_size ∧
    (l.serialize_n b n).1 = Except.ok l.get_size ∧
    ((l.serialize b).2).length = b.length ∧
    ((l.serialize b).2).drop l.get_size = b.drop l.get_size ∧
    ((l.serialize_n b n).2).length = b.length ∧
    ((l.serialize_n b n).2).drop l.get_size = b.drop l.get_size :=
  l.serialize_ok_facts b n hb

theorem claim_C2_witness :
    ((Layers.Ethernet sampleEthernet).serialize [0, 0, 0]).1 =
      Except.ok (Layers.Ethernet sampleEthernet).get_size ∧
    ((Layers.Ethernet sampleEthernet).serialize_n [0, 0, 0] 5).1 =
      Except.ok (Layers.Ethernet sampleEthernet).get_size ∧
    (((Layers.Ethernet sampleEthernet).serialize [0, 0, 0]).2).length = [0, 0, 0].length ∧
    (((Layers.Ethernet sampleEthernet).serialize [0, 0, 0]).2).drop
        (Layers.Ethernet sampleEthernet).get_size =
      [0, 0, 0].drop (Layers.Ethernet sampleEthernet).get_size ∧
    (((Layers.Ethernet sampleEthernet).serialize_n [0, 0, 0] 5).2).length = [0, 0, 0].length ∧
    (((Layers.Ethernet sampleEthernet).serialize_n [0, 0, 0] 5).2).drop
        (Layers.Ethernet sampleEthernet).get_size =
      [0, 0, 0].drop (Layers.Ethernet sampleEthernet).get_size :=
  claim_C2 (Layers.Ethernet sampleEthernet) [0, 0, 0] 5 (by decide) (by decide)

/-- C3: for every `Layers` value and every buffer strictly shorter than
`get_size`, `serialize` and `serialize_n` return the buffer-too-small
failure value and leave the buffer untouched (no out-of-bounds write, no
panic: the operations are total and return the error value). -/
theorem claim_C3 (l : Layers) (b : List Nat) (n : Nat)
    (h : b.length < l.get_size) :
    l.serialize b = (Except.error SerializeError.BufferTooSmallError, b) ∧
    l.serialize_n b n = (Except.error SerializeError.BufferTooSmallError, b) :=
  l.serialize_err_facts b n h

theorem claim_C3_witness :
    (Layers.Ethernet sampleEthernet).serialize [0] =
      (Except.error SerializeError.BufferTooSmallError, [0]) ∧
    (Layers.Ethernet sampleEthernet).serialize_n [0] 9 =
      (Except.error SerializeError.BufferTooSmallError, [0]) :=
  claim_C3 (Layers.Ethernet sampleEthernet) [0] 9 (by decide)

/-- C4: the failure side of every serialization outcome is drawn from a
type with exactly one failure kind: every `SerializeError` value is
`BufferTooSmallError`, and every call to `serialize` or `serialize_n`
either succeeds reporting `get_size` or fails with exactly
`BufferTooSmallError`. -/
theorem claim_C4 :
    (∀ e : SerializeError, e = SerializeError.BufferTooSmallError) ∧
    ∀ (l : Layers) (b : List Nat) (n : Nat),
      ((l.serialize b).1 = Except.ok l.get_size ∨
       (l.serialize b).1 = Except.error SerializeError.BufferTooSmallError) ∧
      ((l.serialize_n b n).1 = Except.ok l.get_size ∨
       (l.serialize_n b n).1 = Except.error SerializeError.BufferTooSmallError) := by
  refine ⟨fun e => by cases e; rfl, fun l b n => ?_⟩
  by_cases h : b.length < l.get_size
  · have herr := l.serialize_err_facts b n h
    exact ⟨Or.inr (by rw [herr.1]), Or.inr (by rw [herr.2])⟩
  · have hok := l.serialize_ok_facts b n (Nat.le_of_not_lt h)
    exact ⟨Or.inl hok.1, Or.inl hok.2.1⟩

/-- C5: the tag returned by `get_type` matches the concrete variant
actually stored, structurally for every value of each variant. -/
theorem claim_C5 (e : ethernet.Ethernet) (a : arp.Arp) (i : ipv4.Ipv4)
    (t : tcp.Tcp) (u : udp.Udp) :
    (Layers.Ethernet e).get_type = LayerTypes.Ethernet ∧
    (Layers.Arp a).get_type = LayerTypes.Arp ∧
    (Layers.Ipv4 i).get_type = LayerTypes.Ipv4 ∧
    (Layers.Tcp t).get_type = LayerTypes.Tcp ∧
    (Layers.Udp u).get_type = LayerTypes.Udp :=
  ⟨rfl, rfl, rfl, rfl, rfl⟩

/-- C6: every `LayerType` value constructible through the public surface
of the source module (the five constants and derived `Clone`) is one of
the five defined constants, so neither `Display` nor equality can ever
observe a tag outside that closed set. -/
theorem claim_C6 (t : LayerType) (h : LayerType.Reachable t) :
    (t = LayerTypes.Ethernet ∨ t = LayerTypes.Arp ∨ t = LayerTypes.Ipv4 ∨
     t = LayerTypes.Tcp ∨ t = LayerTypes.Udp) ∧
    LayerType.display t ∈ ["Ethernet", "ARP", "IPv4", "TCP", "UDP"] := by
  induction h with
  | ethernet => exact ⟨Or.inl rfl, by decide⟩
  | arp => exact ⟨Or.inr (Or.inl rfl), by decide⟩
  | ipv4 => exact ⟨Or.inr (Or.inr (Or.inl rfl)), by decide⟩
  | tcp => exact ⟨Or.inr (Or.inr (Or.inr (Or.inl rfl))), by decide⟩
  | udp => exact ⟨Or.inr (Or.inr (Or.inr (Or.inr rfl))), by decide⟩
  | clone _ ih => exact ih

theorem claim_C6_witness :
    (LayerTypes.Tcp = LayerTypes.Ethernet ∨ LayerTypes.Tcp = LayerTypes.Arp ∨
     LayerTypes.Tcp = LayerTypes.Ipv4 ∨ LayerTypes.Tcp = LayerTypes.Tcp ∨
     LayerTypes.Tcp = LayerTypes.Udp) ∧
    LayerType.display LayerTypes.Tcp ∈ ["Ethernet", "ARP", "IPv4", "TCP", "UDP"] :=
  claim_C6 LayerTypes.Tcp LayerType.Reachable.tcp

/-- C7 as stated is false on the code: the source derives only `Debug`
and `Clone` on `Layers`, so no structural equality comparison
(`PartialEq`/`Eq`) is available on `Layers` values. -/
theorem claim_C7_counterexample :
    "PartialEq" ∉ Layers.derives ∧ "Eq" ∉ Layers.derives := by
  decide

/-- C7 (amended): `Layers` values are copyable — the derived `Clone`
copies the held concrete layer into a structurally equal value sharing no
mutable state — but the code provides no structural equality comparison
on `Layers` (the derive list holds `Clone` and `Debug` only, not
`PartialEq` or `Eq`). -/
theorem claim_C7 (l : Layers) :
    Layers.clone l = l ∧
    "Clone" ∈ Layers.derives ∧ "Debug" ∈ Layers.derives ∧
    "PartialEq" ∉ Layers.derives ∧ "Eq" ∉ Layers.derives := by
  refine ⟨?_, by decide, by decide, by decide, by decide⟩
  cases l <;> rfl

/-- C8: equality of `LayerType` values holds exactly when the wrapped
small-integer identities are equal, and equal tags feed identical data to
the hasher (the derived `Hash` hashes exactly the wrapped byte). -/
theorem claim_C8 (a b : LayerType) :
    (a = b ↔ a.val = b.val) ∧
    (a = b → LayerType.hashInput a = LayerType.hashInput b) := by
  refine ⟨⟨fun h => by rw [h], fun h => ?_⟩, fun h => by rw [h]⟩
  cases a
  cases b
  exact congrArg LayerType.mk h

theorem claim_C8_witness :
    LayerTypes.Udp.val = LayerTypes.Udp.val ∧
    LayerType.hashInput LayerTypes.Udp = LayerType.hashInput LayerTypes.Udp :=
  ⟨(claim_C8 LayerTypes.Udp LayerTypes.Udp).1.mp rfl,
   (claim_C8 LayerTypes.Udp LayerTypes.Udp).2 rfl⟩

/-- C9: the stack serialization driver, given a zero-length stack and any
buffer (including a zero-length one), succeeds and reports zero bytes
written, leaving the buffer untouched. -/
theorem claim_C9 (b : List Nat) : serializeStack [] b = (Except.ok 0, b) := by
  simp [serializeStack, driveStack]

/-- C10: the five tag constants are pairwise distinct with underlying
identities 0 through 4, `Display` renders them to exactly the five
protocol names, and `Display` is total: any `LayerType` outside the five
constants renders as the string `unknown`. -/
theorem claim_C10 :
    (LayerTypes.Ethernet.val = 0 ∧ LayerTypes.Arp.val = 1 ∧
     LayerTypes.Ipv4.val = 2 ∧ LayerTypes.Tcp.val = 3 ∧ LayerTypes.Udp.val = 4 ∧
     List.Pairwise (fun a b => a ≠ b)
       [LayerTypes.Ethernet, LayerTypes.Arp, LayerTypes.Ipv4,
        LayerTypes.Tcp, LayerTypes.Udp]) ∧
    (LayerType.display LayerTypes.Ethernet = "Ethernet" ∧
     LayerType.display LayerTypes.Arp = "ARP" ∧
     LayerType.display LayerTypes.Ipv4 = "IPv4" ∧
     LayerType.display LayerTypes.Tcp = "TCP" ∧
     LayerType.display LayerTypes.Udp = "UDP") ∧
    ∀ t : LayerType,
      t ∉ [LayerTypes.Ethernet, LayerTypes.Arp, LayerTypes.Ipv4,
           LayerTypes.Tcp, LayerTypes.Udp] →
      LayerType.display t = "unknown" := by
  refine ⟨by decide, by decide, fun t h => ?_⟩
  simp [List.mem_cons, not_or] at h
  obtain ⟨h1, h2, h3, h4, h5⟩ := h
  simp [LayerType.display, h1, h2, h3, h4, h5]

theorem claim_C10_witness : LayerType.display ⟨7⟩ = "unknown" :=
  claim_C10.2.2 ⟨7⟩ (by decide)
